import Mathlib

/-! # Verification of the taskable list/todo synchronizer

Shallow embedding of the state-synchronization logic of `src/src/App.tsx`:
the in-memory list collection, the active list id, the single-flight create
flag, and every mutation operation, together with the remote calls each
operation issues.  Remote interactions (select, insert, update, delete) are
modelled by an explicit call log plus response scripts (`FetchResp`)
supplying what the remote store returns to each fetch round; `signedIn` and
`hasSb` stand for the ambient `isSignedIn` and `supabase !== null`. -/

/-- A todo entry, with the fields App.tsx constructs and mutates
(handleCreateTodo, lines 217-223). -/
structure TodoItem where
  id : String
  title : String
  completed : Bool
  level : Nat
  isEmpty : Bool
deriving DecidableEq, Repr

/-- A named todo list (interface TodoList, App.tsx lines 14-18). -/
structure TodoList where
  id : String
  name : String
  todos : List TodoItem
deriving DecidableEq, Repr

/-- Partial field changes, as in `Partial<TodoItemType>`: a present field
overrides, an absent one is kept. -/
structure TodoUpdates where
  id : Option String := none
  title : Option String := none
  completed : Option Bool := none
  level : Option Nat := none
  isEmpty : Option Bool := none
deriving DecidableEq, Repr

/-- JS object spread `{ ...todo, ...updates }`: present fields override. -/
def applyUpdates (t : TodoItem) (u : TodoUpdates) : TodoItem :=
  { id := u.id.getD t.id
    title := u.title.getD t.title
    completed := u.completed.getD t.completed
    level := u.level.getD t.level
    isEmpty := u.isEmpty.getD t.isEmpty }

/-- The component state App.tsx holds in React state hooks (lines 25-28). -/
structure AppState where
  lists : List TodoList
  activeListId : String
  isInit : Bool
  isCreatingList : Bool
deriving DecidableEq, Repr

/-- One remote-store request issued by the synchronizer. -/
inductive RemoteCall where
  | select : RemoteCall
  | insert : TodoList → RemoteCall
  | updateTodos : String → List TodoItem → RemoteCall
  | updateName : String → String → RemoteCall
  | deleteRow : String → RemoteCall
deriving DecidableEq, Repr

def isInsertCall : RemoteCall → Bool
  | RemoteCall.insert _ => true
  | _ => false

/-- Response script for one fetchTodoLists round: whether its select
succeeds, the rows it returns, the uuid drawn for the default list when
the result set is empty, and whether the insert issued by the nested
createList succeeds. -/
structure FetchResp where
  selectOk : Bool
  rows : List TodoList
  freshId : String
  insertOk : Bool
deriving DecidableEq, Repr

/-- The default list synthesized when no lists exist (App.tsx 100-104). -/
def mkDefault (freshId : String) : TodoList :=
  { id := freshId, name := "My Tasks", todos := [] }

/-- `activeList = lists.find(list => list.id === activeListId)` (line 213). -/
def activeList (s : AppState) : Option TodoList :=
  s.lists.find? (fun l => l.id == s.activeListId)

/-- `todos = activeList?.todos || []` (line 214). -/
def todosOf (s : AppState) : List TodoItem :=
  (Option.map TodoList.todos (activeList s)).getD []

/-- syncList (lines 115-131): no-op unless signed in with a client;
otherwise one update carrying the full todo sequence. -/
def syncList (signedIn hasSb : Bool) (listId : String) (updatedTodos : List TodoItem) :
    List RemoteCall :=
  if signedIn = false then [] else
  if hasSb = false then [] else
  [RemoteCall.updateTodos listId updatedTodos]

/-- The synchronous guard prefix of createList (lines 134-135).  React
state reads are render-scoped: the guard tests `captured`, the
closure-captured value of isCreatingList from the render that created the
running handler (a nested call reached through the same render's closures
sees the same captured value, not the raised flag), while the raise writes
the store that later renders observe. -/
def createListEnter (captured : Bool) (s : AppState) : AppState × Bool :=
  if captured then (s, false) else ({ s with isCreatingList := true }, true)

mutual

/-- fetchTodoLists (lines 78-113).  Consumes the head response; the nested
createList reached on an empty result set runs its own fetch on the tail.
`captured` is the render-closure copy of isCreatingList, inherited by the
nested createList, which therefore is NOT dropped by a flag raised after
the closure was created: two consecutive empty selects insert two default
lists.  A select error aborts the body (catch logs only). -/
def fetchAt (signedIn hasSb captured : Bool) :
    List FetchResp → AppState → AppState × List RemoteCall
  | [], s => (s, [])
  | r :: rest, s =>
    if hasSb = false then (s, []) else
    if r.selectOk = false then (s, [RemoteCall.select]) else
    match r.rows with
    | x :: xs =>
      ({ s with
          lists := x :: xs
          activeListId := if s.activeListId = "" then x.id else s.activeListId
          isInit := true }, [RemoteCall.select])
    | [] =>
      let d := mkDefault r.freshId
      let p := createAt signedIn hasSb r.insertOk captured rest d s
      ({ p.1 with lists := [d], activeListId := d.id, isInit := true },
        RemoteCall.select :: p.2)
termination_by resps s => (resps.length, 0)

/-- createList (lines 133-163): the guard on the closure-captured flag,
then the guarded body. -/
def createAt (signedIn hasSb insertOk captured : Bool) (rest : List FetchResp) (l : TodoList)
    (s : AppState) : AppState × List RemoteCall :=
  let e := createListEnter captured s
  if e.2 = false then (e.1, []) else createBody signedIn hasSb insertOk captured rest l e.1
termination_by (rest.length, 2)

/-- The try/finally body of createList once the flag is raised (137-162):
unauthenticated appends locally and activates; authenticated inserts, and on
success refetches (same render closure, same `captured`) and activates by
id; the finally clears the store flag. -/
def createBody (signedIn hasSb insertOk captured : Bool) (rest : List FetchResp) (l : TodoList)
    (s : AppState) : AppState × List RemoteCall :=
  if signedIn = false then
    ({ s with lists := s.lists ++ [l], activeListId := l.id, isCreatingList := false }, [])
  else if hasSb then
    if insertOk = false then
      ({ s with isCreatingList := false }, [RemoteCall.insert l])
    else
      let p := fetchAt signedIn hasSb captured rest s
      ({ p.1 with activeListId := l.id, isCreatingList := false },
        RemoteCall.insert l :: p.2)
  else ({ s with isCreatingList := false }, [])
termination_by (rest.length, 1)

end

/-- deleteList (lines 165-188).  Unauthenticated: filter locally and, when
the deleted list was active, fall back to `lists[0]?.id || ''` where `lists`
is the pre-deletion render value (the source reads the stale state variable,
not the filtered result).  Authenticated: delete remotely, then refetch. -/
def deleteList (signedIn hasSb deleteOk captured : Bool) (resps : List FetchResp) (id : String)
    (s : AppState) : AppState × List RemoteCall :=
  if signedIn = false then
    ({ s with
        lists := s.lists.filter (fun l => l.id != id)
        activeListId :=
          if s.activeListId = id then (Option.map TodoList.id s.lists.head?).getD ""
          else s.activeListId }, [])
  else if hasSb = false then (s, [])
  else if deleteOk = false then (s, [RemoteCall.deleteRow id])
  else
    let p := fetchAt signedIn hasSb captured resps s
    (p.1, RemoteCall.deleteRow id :: p.2)

/-- updateListTitle (lines 190-211): optimistic local rename of the active
entry first, then, when remote-capable, one name update by active id. -/
def updateListTitle (signedIn hasSb : Bool) (newTitle : String) (s : AppState) :
    AppState × List RemoteCall :=
  let updatedLists :=
    s.lists.map (fun l => if l.id = s.activeListId then { l with name := newTitle } else l)
  ({ s with lists := updatedLists },
    if signedIn = false then [] else
    if hasSb = false then [] else
    [RemoteCall.updateName s.activeListId newTitle])

/-- handleCreateTodo (lines 216-232). -/
def handleCreateTodo (signedIn hasSb : Bool) (freshId : String) (s : AppState) :
    AppState × List RemoteCall :=
  let newTodo : TodoItem :=
    { id := freshId, title := "", completed := false, level := 0, isEmpty := true }
  let updatedTodos := todosOf s ++ [newTodo]
  let updatedLists :=
    s.lists.map (fun l => if l.id = s.activeListId then { l with todos := updatedTodos } else l)
  ({ s with lists := updatedLists }, syncList signedIn hasSb s.activeListId updatedTodos)

/-- handleUpdateTodo (lines 234-245). -/
def handleUpdateTodo (signedIn hasSb : Bool) (id : String) (u : TodoUpdates) (s : AppState) :
    AppState × List RemoteCall :=
  let updatedTodos := (todosOf s).map (fun td => if td.id = id then applyUpdates td u else td)
  let updatedLists :=
    s.lists.map (fun l => if l.id = s.activeListId then { l with todos := updatedTodos } else l)
  ({ s with lists := updatedLists }, syncList signedIn hasSb s.activeListId updatedTodos)

/-- handleDeleteTodo (lines 247-255). -/
def handleDeleteTodo (signedIn hasSb : Bool) (id : String) (s : AppState) :
    AppState × List RemoteCall :=
  let updatedTodos := (todosOf s).filter (fun td => td.id != id)
  let updatedLists :=
    s.lists.map (fun l => if l.id = s.activeListId then { l with todos := updatedTodos } else l)
  ({ s with lists := updatedLists }, syncList signedIn hasSb s.activeListId updatedTodos)

/-- handleDuplicateTodo (lines 257-274): no-op when no todo matches;
otherwise append a clone with a fresh id and " (copy)" suffix, then sync. -/
def handleDuplicateTodo (signedIn hasSb : Bool) (freshId : String) (id : String)
    (s : AppState) : AppState × List RemoteCall :=
  match (todosOf s).find? (fun td => td.id == id) with
  | none => (s, [])
  | some orig =>
    let newTodo : TodoItem := { orig with id := freshId, title := orig.title ++ " (copy)" }
    let updatedTodos := todosOf s ++ [newTodo]
    let updatedLists :=
      s.lists.map (fun l => if l.id = s.activeListId then { l with todos := updatedTodos } else l)
    ({ s with lists := updatedLists }, syncList signedIn hasSb s.activeListId updatedTodos)

/-- The mount effect (lines 63-76): authenticated fetch, otherwise a local
default list when not yet set up. -/
def initApp (signedIn hasSb captured : Bool) (resps : List FetchResp) (freshId : String)
    (s : AppState) : AppState × List RemoteCall :=
  if signedIn && hasSb then fetchAt signedIn hasSb captured resps s
  else if s.isInit = false then
    ({ s with lists := [mkDefault freshId], activeListId := freshId, isInit := true }, [])
  else (s, [])

/-- A user-facing mutation, carrying the uuids it draws; the list-level ops
are instantiated with an empty response script since the unauthenticated
paths, which this op language models, issue no fetch. -/
inductive LocalOp where
  | createTodo : String → LocalOp
  | updateTodo : String → TodoUpdates → LocalOp
  | deleteTodo : String → LocalOp
  | duplicateTodo : String → String → LocalOp
  | setListTitle : String → LocalOp
  | newList : TodoList → LocalOp
  | removeList : String → LocalOp
deriving DecidableEq, Repr

def runOp (signedIn hasSb : Bool) : LocalOp → AppState → AppState × List RemoteCall
  | LocalOp.createTodo fid, s => handleCreateTodo signedIn hasSb fid s
  | LocalOp.updateTodo i u, s => handleUpdateTodo signedIn hasSb i u s
  | LocalOp.deleteTodo i, s => handleDeleteTodo signedIn hasSb i s
  | LocalOp.duplicateTodo fid i, s => handleDuplicateTodo signedIn hasSb fid i s
  | LocalOp.setListTitle t, s => updateListTitle signedIn hasSb t s
  | LocalOp.newList l, s => createAt signedIn hasSb true s.isCreatingList [] l s
  | LocalOp.removeList i, s => deleteList signedIn hasSb true s.isCreatingList [] i s

def runOps (signedIn hasSb : Bool) : List LocalOp → AppState → AppState × List RemoteCall
  | [], s => (s, [])
  | op :: ops, s =>
    let p := runOp signedIn hasSb op s
    let q := runOps signedIn hasSb ops p.1
    (q.1, p.2 ++ q.2)

/-- Interleaving of two createList invocations in the cooperative
single-thread model: call one, whose closure captured the current store
flag, passes the synchronous guard and suspends at its first await; call
two is issued from the re-render that follows the raise, so its closure
captures the raised flag; call one then resumes its guarded body with its
own captured value.  Total even when call one is itself dropped. -/
def twoConcurrentCreates (signedIn hasSb ok1 ok2 : Bool) (resps1 resps2 : List FetchResp)
    (l1 l2 : TodoList) (s : AppState) : AppState × List RemoteCall :=
  let e := createListEnter s.isCreatingList s
  if e.2 = false then createAt signedIn hasSb ok2 e.1.isCreatingList resps2 l2 e.1
  else
    let p2 := createAt signedIn hasSb ok2 e.1.isCreatingList resps2 l2 e.1
    let p1 := createBody signedIn hasSb ok1 s.isCreatingList resps1 l1 p2.1
    (p1.1, p2.2 ++ p1.2)

/-- Boolean form of the spec invariant: the active id is empty or names a
list of the collection. -/
def activeOkb (s : AppState) : Bool :=
  s.activeListId == "" || s.lists.any (fun l => l.id == s.activeListId)

/-- Spec-level local application of one mutation, written from the spec's
operation descriptions (sections 4.1 and 8), as the meaning of "the result
of applying exactly those operations in order": createTodo appends an empty
item to the active list, updateTodo merges by id within the active list,
deleteTodo removes by id, duplicateTodo appends the " (copy)" clone of the
matched item, updateListTitle renames the active list, createList appends
the list and activates it, and deleteList removes the list and, when it was
active, falls back to the first remaining list or none. -/
def specApplyLocal : LocalOp → AppState → AppState
  | LocalOp.createTodo fid, s =>
    { s with lists := s.lists.map (fun l =>
        if l.id = s.activeListId then
          { l with todos := l.todos ++
              [{ id := fid, title := "", completed := false, level := 0, isEmpty := true }] }
        else l) }
  | LocalOp.updateTodo i u, s =>
    { s with lists := s.lists.map (fun l =>
        if l.id = s.activeListId then
          { l with todos := l.todos.map (fun td => if td.id = i then applyUpdates td u else td) }
        else l) }
  | LocalOp.deleteTodo i, s =>
    { s with lists := s.lists.map (fun l =>
        if l.id = s.activeListId then
          { l with todos := l.todos.filter (fun td => td.id != i) }
        else l) }
  | LocalOp.duplicateTodo fid i, s =>
    { s with lists := s.lists.map (fun l =>
        if l.id = s.activeListId then
          { l with todos :=
              match l.todos.find? (fun td => td.id == i) with
              | none => l.todos
              | some orig =>
                l.todos ++ [{ orig with id := fid, title := orig.title ++ " (copy)" }] }
        else l) }
  | LocalOp.setListTitle t, s =>
    { s with lists := s.lists.map (fun l =>
        if l.id = s.activeListId then { l with name := t } else l) }
  | LocalOp.newList l, s =>
    { s with lists := s.lists ++ [l], activeListId := l.id }
  | LocalOp.removeList i, s =>
    let remaining := s.lists.filter (fun l => l.id != i)
    { s with
        lists := remaining
        activeListId :=
          if s.activeListId = i then (Option.map TodoList.id remaining.head?).getD ""
          else s.activeListId }

def sampleL1 : TodoList := { id := "L1", name := "Work", todos := [] }
def sampleL2 : TodoList := { id := "L2", name := "Home", todos := [] }

/-- Two lists, the first one active, nothing in flight. -/
def sampleState : AppState :=
  { lists := [sampleL1, sampleL2], activeListId := "L1", isInit := true, isCreatingList := false }

def sampleTodo : TodoItem :=
  { id := "t1", title := "Buy milk", completed := false, level := 0, isEmpty := false }

/-- Like `sampleState` but the active list holds one todo. -/
def sampleStateT : AppState :=
  { lists := [{ id := "L1", name := "Work", todos := [sampleTodo] }, sampleL2]
    activeListId := "L1", isInit := true, isCreatingList := false }

/-! ## Shared helper lemmas -/

theorem map_eq_self_of {α : Type} (l : List α) (f : α → α) (h : ∀ a ∈ l, f a = a) :
    l.map f = l := by
  induction l with
  | nil => rfl
  | cons a t ih => simp [h a (by simp), ih (fun x hx => h x (by simp [hx]))]

/-- The rebuild-one map used by every active-list update: length is kept and
an entry whose id is not the active id passes through at its position. -/
theorem rebuild_frame (lists : List TodoList) (aid : String) (f : TodoList → TodoList)
    (j : Nat) (L : TodoList) (hL : lists[j]? = some L) (hne : L.id ≠ aid) :
    (lists.map (fun l => if l.id = aid then f l else l)).length = lists.length ∧
    (lists.map (fun l => if l.id = aid then f l else l))[j]? = some L := by
  constructor
  · simp
  · rw [List.getElem?_map, hL]; simp [hne]

/-! ## Claim theorems -/

/-- C1: counterexample run of `deleteList` while unauthenticated, deleting
the active list "L1" out of ["L1", "L2"].  The remaining collection is
["L2"], yet the active id stays "L1": the source falls back to
`lists[0]?.id` of the pre-deletion render state, not to the first remaining
list "L2" that the claim requires (and with a single list it would likewise
keep the deleted id rather than become empty). -/
theorem deleteList_active_first_stale :
    (deleteList false false true false [] "L1" sampleState).1.lists.map TodoList.id = ["L2"] ∧
    (deleteList false false true false [] "L1" sampleState).1.activeListId = "L1" := by decide

/-- C2: deleteList does not preserve the invariant that the active id is
empty or references an existing list: it holds in `sampleState` but fails
after the unauthenticated deletion of the active first list, which leaves
the active id "L1" dangling. -/
theorem deleteList_breaks_active_invariant :
    activeOkb sampleState = true ∧
    activeOkb (deleteList false false true false [] "L1" sampleState).1 = false := by decide

/-- C6: fetchLists receiving a non-empty result set replaces the whole
in-memory collection by the fetched lists in the returned order,
unconditionally (last-fetch-wins); when no list was active the first
fetched list becomes active, and otherwise the active id is unchanged. -/
theorem fetch_nonempty_replaces_and_activates (signedIn hasSb captured : Bool) (r : FetchResp)
    (rest : List FetchResp) (x : TodoList) (xs : List TodoList) (s : AppState)
    (hsb : hasSb = true) (hok : r.selectOk = true) (hrows : r.rows = x :: xs) :
    (fetchAt signedIn hasSb captured (r :: rest) s).1.lists = x :: xs ∧
    (s.activeListId = "" →
      (fetchAt signedIn hasSb captured (r :: rest) s).1.activeListId = x.id) ∧
    (s.activeListId ≠ "" →
      (fetchAt signedIn hasSb captured (r :: rest) s).1.activeListId = s.activeListId) ∧
    (fetchAt signedIn hasSb captured (r :: rest) s).2 = [RemoteCall.select] := by
  rw [fetchAt]
  simp only [hsb, hok, hrows]
  refine ⟨by simp, fun h => by simp [h], fun h => by simp [h], by simp⟩

/-- C6 witness: fetching [{id:"A"},{id:"B"}] with no active list replaces
the collection by those two lists in order and makes "A" active. -/
theorem fetch_nonempty_replaces_and_activates_witness :
    (fetchAt true true false [⟨true, [⟨"A", "Work", []⟩, ⟨"B", "Home", []⟩], "", true⟩]
        ⟨[], "", false, false⟩).1.lists = [⟨"A", "Work", []⟩, ⟨"B", "Home", []⟩] ∧
    ((⟨[], "", false, false⟩ : AppState).activeListId = "" →
      (fetchAt true true false [⟨true, [⟨"A", "Work", []⟩, ⟨"B", "Home", []⟩], "", true⟩]
        ⟨[], "", false, false⟩).1.activeListId = "A") ∧
    ((⟨[], "", false, false⟩ : AppState).activeListId ≠ "" →
      (fetchAt true true false [⟨true, [⟨"A", "Work", []⟩, ⟨"B", "Home", []⟩], "", true⟩]
        ⟨[], "", false, false⟩).1.activeListId =
        (⟨[], "", false, false⟩ : AppState).activeListId) ∧
    (fetchAt true true false [⟨true, [⟨"A", "Work", []⟩, ⟨"B", "Home", []⟩], "", true⟩]
        ⟨[], "", false, false⟩).2 = [RemoteCall.select] :=
  fetch_nonempty_replaces_and_activates true true false _ [] ⟨"A", "Work", []⟩
    [⟨"B", "Home", []⟩] ⟨[], "", false, false⟩ rfl rfl rfl

/-- C9: every operation that updates the active list (createTodo,
updateTodo, deleteTodo, duplicateTodo, updateListTitle) keeps the
collection length and passes every entry whose id differs from the active
id through unchanged at its position. -/
theorem active_update_frame (signedIn hasSb : Bool) (freshId t newTitle : String)
    (u : TodoUpdates) (s : AppState) (j : Nat) (L : TodoList)
    (hL : s.lists[j]? = some L) (hne : L.id ≠ s.activeListId) :
    ((handleCreateTodo signedIn hasSb freshId s).1.lists.length = s.lists.length ∧
      (handleCreateTodo signedIn hasSb freshId s).1.lists[j]? = some L) ∧
    ((handleUpdateTodo signedIn hasSb t u s).1.lists.length = s.lists.length ∧
      (handleUpdateTodo signedIn hasSb t u s).1.lists[j]? = some L) ∧
    ((handleDeleteTodo signedIn hasSb t s).1.lists.length = s.lists.length ∧
      (handleDeleteTodo signedIn hasSb t s).1.lists[j]? = some L) ∧
    ((handleDuplicateTodo signedIn hasSb freshId t s).1.lists.length = s.lists.length ∧
      (handleDuplicateTodo signedIn hasSb freshId t s).1.lists[j]? = some L) ∧
    ((updateListTitle signedIn hasSb newTitle s).1.lists.length = s.lists.length ∧
      (updateListTitle signedIn hasSb newTitle s).1.lists[j]? = some L) := by
  refine ⟨?_, ?_, ?_, ?_, ?_⟩
  · simpa [handleCreateTodo] using rebuild_frame s.lists s.activeListId _ j L hL hne
  · simpa [handleUpdateTodo] using rebuild_frame s.lists s.activeListId _ j L hL hne
  · simpa [handleDeleteTodo] using rebuild_frame s.lists s.activeListId _ j L hL hne
  · cases hf : (todosOf s).find? (fun td => td.id == t) with
    | none => simp [handleDuplicateTodo, hf, hL]
    | some orig =>
      simpa [handleDuplicateTodo, hf] using rebuild_frame s.lists s.activeListId _ j L hL hne
  · simpa [updateListTitle] using rebuild_frame s.lists s.activeListId _ j L hL hne

/-- C9 witness: on a two-list state with "L1" active, each of the five
operations leaves the non-active entry "L2" unchanged at position 1 and
keeps the collection length 2. -/
theorem active_update_frame_witness :
    ((handleCreateTodo true true "f1" sampleStateT).1.lists.length =
        sampleStateT.lists.length ∧
      (handleCreateTodo true true "f1" sampleStateT).1.lists[1]? = some sampleL2) ∧
    ((handleUpdateTodo true true "t1" ⟨none, none, some true, none, none⟩
          sampleStateT).1.lists.length = sampleStateT.lists.length ∧
      (handleUpdateTodo true true "t1" ⟨none, none, some true, none, none⟩
          sampleStateT).1.lists[1]? = some sampleL2) ∧
    ((handleDeleteTodo true true "t1" sampleStateT).1.lists.length =
        sampleStateT.lists.length ∧
      (handleDeleteTodo true true "t1" sampleStateT).1.lists[1]? = some sampleL2) ∧
    ((handleDuplicateTodo true true "f1" "t1" sampleStateT).1.lists.length =
        sampleStateT.lists.length ∧
      (handleDuplicateTodo true true "f1" "t1" sampleStateT).1.lists[1]? = some sampleL2) ∧
    ((updateListTitle true true "Chores" sampleStateT).1.lists.length =
        sampleStateT.lists.length ∧
      (updateListTitle true true "Chores" sampleStateT).1.lists[1]? = some sampleL2) :=
  active_update_frame true true "f1" "t1" "Chores" ⟨none, none, some true, none, none⟩
    sampleStateT 1 sampleL2 (by decide) (by decide)

/-- C10: when no todo of the active list matches the given id,
duplicateTodo is a complete no-op (state and call log both unchanged),
whereas deleteTodo and updateTodo still issue a sync carrying the
unchanged todo sequence. -/
theorem duplicate_missing_noop (signedIn hasSb : Bool) (freshId t : String) (u : TodoUpdates)
    (s : AppState) (hmiss : ∀ td ∈ todosOf s, td.id ≠ t)
    (hsgn : signedIn = true) (hsb : hasSb = true) :
    handleDuplicateTodo signedIn hasSb freshId t s = (s, []) ∧
    (handleDeleteTodo signedIn hasSb t s).2 =
      [RemoteCall.updateTodos s.activeListId (todosOf s)] ∧
    (handleUpdateTodo signedIn hasSb t u s).2 =
      [RemoteCall.updateTodos s.activeListId (todosOf s)] := by
  have hfind : (todosOf s).find? (fun td => td.id == t) = none :=
    List.find?_eq_none.mpr (by intro x hx; simp [hmiss x hx])
  have hfilter : (todosOf s).filter (fun td => td.id != t) = todosOf s :=
    List.filter_eq_self.mpr (by intro x hx; simp [hmiss x hx])
  have hmap : (todosOf s).map (fun td => if td.id = t then applyUpdates td u else td) =
      todosOf s :=
    map_eq_self_of _ _ (by intro x hx; simp [hmiss x hx])
  refine ⟨?_, ?_, ?_⟩
  · simp [handleDuplicateTodo, hfind]
  · simp [handleDeleteTodo, hfilter, syncList, hsgn, hsb]
  · simp [handleUpdateTodo, hmap, syncList, hsgn, hsb]

/-- C10 witness: id "zz" matches nothing in the active list of
`sampleStateT`; duplicateTodo returns the state untouched with no calls,
while deleteTodo and updateTodo each sync the unchanged sequence. -/
theorem duplicate_missing_noop_witness :
    handleDuplicateTodo true true "f9" "zz" sampleStateT = (sampleStateT, []) ∧
    (handleDeleteTodo true true "zz" sampleStateT).2 =
      [RemoteCall.updateTodos sampleStateT.activeListId (todosOf sampleStateT)] ∧
    (handleUpdateTodo true true "zz" ⟨none, some "x", none, none, none⟩ sampleStateT).2 =
      [RemoteCall.updateTodos sampleStateT.activeListId (todosOf sampleStateT)] :=
  duplicate_missing_noop true true "f9" "zz" ⟨none, some "x", none, none, none⟩
    sampleStateT (by decide) rfl rfl

/-- C3: updateTodo on an active list containing the id merges the partial
changes into the matching todo (absent fields keep their old value), leaves
every other todo and the order unchanged, rebuilds only the active
collection entry, and issues one persistence call carrying the full updated
sequence. -/
theorem handleUpdateTodo_spec (signedIn hasSb : Bool) (t : String) (u : TodoUpdates)
    (s : AppState) (hsgn : signedIn = true) (hsb : hasSb = true)
    (hmem : ∃ td ∈ todosOf s, td.id = t) :
    ∃ ts',
      (handleUpdateTodo signedIn hasSb t u s).2 =
        [RemoteCall.updateTodos s.activeListId ts'] ∧
      ts'.length = (todosOf s).length ∧
      (∀ (i : Nat) (old : TodoItem), (todosOf s)[i]? = some old → old.id ≠ t → ts'[i]? = some old) ∧
      (∀ (i : Nat) (old : TodoItem), (todosOf s)[i]? = some old → old.id = t →
        ts'[i]? = some
          { id := u.id.getD old.id
            title := u.title.getD old.title
            completed := u.completed.getD old.completed
            level := u.level.getD old.level
            isEmpty := u.isEmpty.getD old.isEmpty }) ∧
      (∀ (j : Nat) (L : TodoList), s.lists[j]? = some L →
        (handleUpdateTodo signedIn hasSb t u s).1.lists[j]? =
          some (if L.id = s.activeListId then { L with todos := ts' } else L)) := by
  refine ⟨(todosOf s).map (fun td => if td.id = t then applyUpdates td u else td),
    ?_, ?_, ?_, ?_, ?_⟩
  · simp [handleUpdateTodo, syncList, hsgn, hsb]
  · simp
  · intro i old h hne
    rw [List.getElem?_map, h]
    simp [hne]
  · intro i old h heq
    rw [List.getElem?_map, h]
    simp [heq, applyUpdates]
  · intro j L h
    simp only [handleUpdateTodo]
    rw [List.getElem?_map, h]
    rfl

/-- C3 witness: updateTodo("t1", \x7bcompleted: true\x7d) on the active list of
`sampleStateT` (t1 has completed=false) syncs a full sequence in which t1
is completed and every other field kept, and rebuilds only the "L1" entry. -/
theorem handleUpdateTodo_spec_witness :
    ∃ ts',
      (handleUpdateTodo true true "t1" ⟨none, none, some true, none, none⟩ sampleStateT).2 =
        [RemoteCall.updateTodos sampleStateT.activeListId ts'] ∧
      ts'.length = (todosOf sampleStateT).length ∧
      (∀ (i : Nat) (old : TodoItem), (todosOf sampleStateT)[i]? = some old → old.id ≠ "t1" → ts'[i]? = some old) ∧
      (∀ (i : Nat) (old : TodoItem), (todosOf sampleStateT)[i]? = some old → old.id = "t1" →
        ts'[i]? = some
          { id := (none : Option String).getD old.id
            title := (none : Option String).getD old.title
            completed := (some true).getD old.completed
            level := (none : Option Nat).getD old.level
            isEmpty := (none : Option Bool).getD old.isEmpty }) ∧
      (∀ (j : Nat) (L : TodoList), sampleStateT.lists[j]? = some L →
        (handleUpdateTodo true true "t1" ⟨none, none, some true, none, none⟩
            sampleStateT).1.lists[j]? =
          some (if L.id = sampleStateT.activeListId then { L with todos := ts' } else L)) :=
  handleUpdateTodo_spec true true "t1" ⟨none, none, some true, none, none⟩ sampleStateT
    rfl rfl (by decide)

/-- C4: duplicateTodo on an active list of length n containing the id
yields the old sequence with one clone appended: length n+1, first n
elements unchanged, last element carrying the fresh uuid (distinct from the
original and from every existing todo), the title suffixed with " (copy)",
and completed, level and isEmpty copied; only the active entry is rebuilt. -/
theorem handleDuplicateTodo_spec (signedIn hasSb : Bool) (freshId t : String) (s : AppState)
    (orig : TodoItem) (hfind : (todosOf s).find? (fun td => td.id == t) = some orig)
    (hfresh : ∀ td ∈ todosOf s, td.id ≠ freshId) :
    ∃ newTodo ts',
      ts' = todosOf s ++ [newTodo] ∧
      ts'.length = (todosOf s).length + 1 ∧
      ts'.take (todosOf s).length = todosOf s ∧
      ts'.getLast? = some newTodo ∧
      newTodo.id = freshId ∧
      newTodo.id ≠ orig.id ∧
      (∀ td ∈ todosOf s, newTodo.id ≠ td.id) ∧
      newTodo.title = orig.title ++ " (copy)" ∧
      newTodo.completed = orig.completed ∧
      newTodo.level = orig.level ∧
      newTodo.isEmpty = orig.isEmpty ∧
      (∀ (j : Nat) (L : TodoList), s.lists[j]? = some L →
        (handleDuplicateTodo signedIn hasSb freshId t s).1.lists[j]? =
          some (if L.id = s.activeListId then { L with todos := ts' } else L)) := by
  have horig : orig ∈ todosOf s := List.mem_of_find?_eq_some hfind
  refine ⟨{ orig with id := freshId, title := orig.title ++ " (copy)" }, _, rfl,
    ?_, ?_, ?_, rfl, ?_, ?_, rfl, rfl, rfl, rfl, ?_⟩
  · simp
  · simpa using List.take_left (todosOf s) _
  · simp
  · exact (hfresh orig horig).symm
  · intro td htd
    exact (hfresh td htd).symm
  · intro j L h
    simp only [handleDuplicateTodo, hfind]
    rw [List.getElem?_map, h]
    rfl

/-- C4 witness: duplicating "t1" in the one-todo active list of
`sampleStateT` with fresh uuid "f7". -/
theorem handleDuplicateTodo_spec_witness :
    ∃ newTodo ts',
      ts' = todosOf sampleStateT ++ [newTodo] ∧
      ts'.length = (todosOf sampleStateT).length + 1 ∧
      ts'.take (todosOf sampleStateT).length = todosOf sampleStateT ∧
      ts'.getLast? = some newTodo ∧
      newTodo.id = "f7" ∧
      newTodo.id ≠ sampleTodo.id ∧
      (∀ td ∈ todosOf sampleStateT, newTodo.id ≠ td.id) ∧
      newTodo.title = sampleTodo.title ++ " (copy)" ∧
      newTodo.completed = sampleTodo.completed ∧
      newTodo.level = sampleTodo.level ∧
      newTodo.isEmpty = sampleTodo.isEmpty ∧
      (∀ (j : Nat) (L : TodoList), sampleStateT.lists[j]? = some L →
        (handleDuplicateTodo true true "f7" "t1" sampleStateT).1.lists[j]? =
          some (if L.id = sampleStateT.activeListId then { L with todos := ts' } else L)) :=
  handleDuplicateTodo_spec true true "f7" "t1" sampleStateT sampleTodo (by decide) (by decide)

/-- Consistent-remote property: when the next select a fetch will issue
returns at least one row (as a select right after a successful insert
does), the fetch never reaches its nested createList and inserts nothing. -/
theorem fetchAt_head_nonempty_no_insert (signedIn hasSb captured : Bool)
    (resps : List FetchResp) (s : AppState)
    (h : ∀ r ∈ resps.head?, r.rows ≠ []) :
    (fetchAt signedIn hasSb captured resps s).2.filter isInsertCall = [] := by
  cases resps with
  | nil => rw [fetchAt]; rfl
  | cons r rest =>
    have hr : r.rows ≠ [] := h r (by simp)
    rw [fetchAt]
    rcases r with ⟨ok, rows, f, i⟩
    cases hasSb <;> cases ok <;> cases rows <;> simp_all [isInsertCall]

/-- C5: fetchLists receiving an empty result set creates exactly one
default list (name "My Tasks", no todos): a single insert is issued through
createList, and the default list becomes the entire in-memory collection
and the active list, with the store flag cleared.  Hypotheses: no create
was in flight at the initiating render (the captured guard is down), the
select and the insert succeed, and the remote store is consistent: the
refetch right after the successful insert returns at least that row, so the
nested createList is never reached. -/
theorem fetch_empty_creates_default (signedIn hasSb captured : Bool) (r1 r2 : FetchResp)
    (rest : List FetchResp) (s : AppState)
    (hsgn : signedIn = true) (hsb : hasSb = true) (hcap : captured = false)
    (hok : r1.selectOk = true) (hrows : r1.rows = []) (hins : r1.insertOk = true)
    (hr2 : r2.rows ≠ []) :
    (fetchAt signedIn hasSb captured (r1 :: r2 :: rest) s).1.lists =
      [{ id := r1.freshId, name := "My Tasks", todos := [] }] ∧
    (fetchAt signedIn hasSb captured (r1 :: r2 :: rest) s).1.activeListId = r1.freshId ∧
    (fetchAt signedIn hasSb captured (r1 :: r2 :: rest) s).2.filter isInsertCall =
      [RemoteCall.insert { id := r1.freshId, name := "My Tasks", todos := [] }] ∧
    (fetchAt signedIn hasSb captured (r1 :: r2 :: rest) s).1.isCreatingList = false := by
  subst hsgn
  subst hsb
  subst hcap
  rw [fetchAt]
  simp only [hok, hrows, createAt, createListEnter, createBody, hins, mkDefault]
  rcases r2 with ⟨ok2, rows2, f2, i2⟩
  cases ok2 <;> cases rows2 <;> simp_all [fetchAt, isInsertCall]

/-- C5 witness: an empty fetch for a signed-in user with uuid "D" drawn, a
successful insert, and a consistent refetch that returns the inserted
default. -/
theorem fetch_empty_creates_default_witness :
    (fetchAt true true false
        [⟨true, [], "D", true⟩, ⟨true, [⟨"D", "My Tasks", []⟩], "E", true⟩]
        sampleState).1.lists = [{ id := "D", name := "My Tasks", todos := [] }] ∧
    (fetchAt true true false
        [⟨true, [], "D", true⟩, ⟨true, [⟨"D", "My Tasks", []⟩], "E", true⟩]
        sampleState).1.activeListId = "D" ∧
    (fetchAt true true false
        [⟨true, [], "D", true⟩, ⟨true, [⟨"D", "My Tasks", []⟩], "E", true⟩]
        sampleState).2.filter isInsertCall =
      [RemoteCall.insert { id := "D", name := "My Tasks", todos := [] }] ∧
    (fetchAt true true false
        [⟨true, [], "D", true⟩, ⟨true, [⟨"D", "My Tasks", []⟩], "E", true⟩]
        sampleState).1.isCreatingList = false :=
  fetch_empty_creates_default true true false ⟨true, [], "D", true⟩
    ⟨true, [⟨"D", "My Tasks", []⟩], "E", true⟩ [] sampleState
    rfl rfl rfl rfl rfl rfl (by decide)

/-- C7: the single-flight guard.  Call one's closure captured the lowered
flag, so it passes the guard, raises the store flag and suspends; a second
createList issued before it resolves runs from the re-render whose closure
captured the raised flag, so it is dropped with no state change and no
calls; the whole interleaving issues exactly one insert, the one for call
one's list.  The consistency hypothesis says call one's refetch, issued
right after its successful insert, returns at least one row, so its nested
createList (whose stale captured guard would NOT drop it) is never
reached. -/
theorem createList_single_flight (signedIn hasSb ok1 ok2 : Bool)
    (resps1 resps2 : List FetchResp) (l1 l2 : TodoList) (s : AppState)
    (hflag : s.isCreatingList = false) (hsgn : signedIn = true) (hsb : hasSb = true)
    (hok1 : ok1 = true) (hcons : ∀ r ∈ resps1.head?, r.rows ≠ []) :
    createAt signedIn hasSb ok2 (createListEnter s.isCreatingList s).1.isCreatingList
        resps2 l2 (createListEnter s.isCreatingList s).1 =
      ((createListEnter s.isCreatingList s).1, []) ∧
    (twoConcurrentCreates signedIn hasSb ok1 ok2 resps1 resps2 l1 l2 s).2.filter isInsertCall =
      [RemoteCall.insert l1] := by
  subst hsgn; subst hsb; subst hok1
  have he1 : (createListEnter s.isCreatingList s).1 = { s with isCreatingList := true } := by
    simp [createListEnter, hflag]
  have he2 : (createListEnter s.isCreatingList s).2 = true := by
    simp [createListEnter, hflag]
  have hdrop2 : createAt true true ok2 true resps2 l2 { s with isCreatingList := true } =
      ({ s with isCreatingList := true }, []) := by
    rw [createAt]
    simp [createListEnter]
  constructor
  · rw [he1]
    simpa using hdrop2
  · rw [twoConcurrentCreates]
    simp [hflag, createListEnter, hdrop2, createBody, isInsertCall, List.filter_append,
      fetchAt_head_nonempty_no_insert true true false resps1
        { s with isCreatingList := true } hcons]

/-- C7 witness: two concurrent creates from `sampleState`: the first
inserts "N1" and its consistent refetch returns that row; the second is
dropped unchanged; exactly one insert in total. -/
theorem createList_single_flight_witness :
    createAt true true false
        (createListEnter sampleState.isCreatingList sampleState).1.isCreatingList []
        ⟨"N2", "Second", []⟩ (createListEnter sampleState.isCreatingList sampleState).1 =
      ((createListEnter sampleState.isCreatingList sampleState).1, []) ∧
    (twoConcurrentCreates true true true false [⟨true, [⟨"N1", "First", []⟩], "X", true⟩] []
        ⟨"N1", "First", []⟩ ⟨"N2", "Second", []⟩ sampleState).2.filter isInsertCall =
      [RemoteCall.insert ⟨"N1", "First", []⟩] :=
  createList_single_flight true true true false [⟨true, [⟨"N1", "First", []⟩], "X", true⟩] []
    ⟨"N1", "First", []⟩ ⟨"N2", "Second", []⟩ sampleState rfl rfl rfl rfl (by decide)

/-- C8: counterexample run of the unauthenticated sequence
[deleteList "L1", createTodo "a"] from `sampleState` (two lists, the first
active).  The code's stale active-id fallback leaves activeListId = "L1"
after the deletion, so the subsequent createTodo targets a list that no
longer exists and the new todo is silently lost: the final collection is
[L2 with no todos], while applying the two operations in order per the
spec yields [L2 holding the new todo].  The no-remote-calls half of the
claim does hold on this run. -/
theorem local_sequence_loses_todo :
    (runOps false true [LocalOp.removeList "L1", LocalOp.createTodo "a"] sampleState).1.lists =
      [sampleL2] ∧
    (runOps false true [LocalOp.removeList "L1", LocalOp.createTodo "a"] sampleState).2 =
      [] ∧
    (List.foldl (fun t op => specApplyLocal op t) sampleState
        [LocalOp.removeList "L1", LocalOp.createTodo "a"]).lists =
      [{ sampleL2 with todos :=
          [{ id := "a", title := "", completed := false, level := 0, isEmpty := true }] }] ∧
    (runOps false true [LocalOp.removeList "L1", LocalOp.createTodo "a"] sampleState).1.lists ≠
      (List.foldl (fun t op => specApplyLocal op t) sampleState
        [LocalOp.removeList "L1", LocalOp.createTodo "a"]).lists := by decide
